import Mathlib

/-!
Shallow embedding of the primrose-mcp-asana server (TypeScript sources under
`src/`): the JSON value model, the transport entrypoint (`src/index.ts`), the
credential helpers (`src/types/env.ts`, shipped inside `types/entities.ts`),
the HTTP client adapter (`src/client.ts`) and the response / error formatters
(`src/utils/formatters.ts`).  Runtime JavaScript values are modelled by the
`Json` type below; `Option Json` stands for a possibly-`undefined` value
(`none` = JS `undefined`).
-/

set_option maxRecDepth 4096

mutual

/-- A JSON / runtime JavaScript value.  Numbers are modelled as integers
(every number appearing in the verified code paths is an integer; `NaN` is
modelled where it arises as `Option Int` with `none` = `NaN`). -/
inductive Json where
  | null : Json
  | bool (b : Bool) : Json
  | num (n : Int) : Json
  | str (s : String) : Json
  | arr (elems : JsonArray) : Json
  | obj (fields : JsonObject) : Json
deriving Repr

/-- A list of JSON values (element list of a JSON array). -/
inductive JsonArray where
  | nil : JsonArray
  | cons (hd : Json) (tl : JsonArray) : JsonArray
deriving Repr

/-- The field list of a JSON object, in insertion order (the order
`JSON.stringify` serializes and `Object.entries` iterates). -/
inductive JsonObject where
  | nil : JsonObject
  | cons (key : String) (val : Json) (tl : JsonObject) : JsonObject
deriving Repr

end

namespace JsonArray

/-- Convert to a Lean list. -/
def toList : JsonArray → List Json
  | .nil => []
  | .cons x xs => x :: xs.toList

/-- Build from a Lean list. -/
def ofList : List Json → JsonArray
  | [] => .nil
  | x :: xs => .cons x (ofList xs)

/-- Length of the array. -/
def length : JsonArray → Nat
  | .nil => 0
  | .cons _ xs => xs.length + 1

/-- Model of `a[0]` on a JS array: first element, `undefined` when empty. -/
def head? : JsonArray → Option Json
  | .nil => none
  | .cons x _ => some x

end JsonArray

namespace JsonObject

/-- Build from a Lean association list. -/
def ofList : List (String × Json) → JsonObject
  | [] => .nil
  | (k, v) :: xs => .cons k v (ofList xs)

/-- Property access: value of the first field named `k`, `none` when the key
is absent (JS `undefined`). -/
def lookup : JsonObject → String → Option Json
  | .nil, _ => none
  | .cons k v tl, key => if k = key then some v else tl.lookup key

end JsonObject

namespace Json

/-- JSON array literal from a Lean list. -/
def arrOf (xs : List Json) : Json := .arr (JsonArray.ofList xs)

/-- JSON object literal from a Lean association list. -/
def objOf (fs : List (String × Json)) : Json := .obj (JsonObject.ofList fs)

/-- JS property read `j[k]`: a field of an object, `undefined` (`none`)
otherwise.  (Property access on a non-object primitive yields `undefined`
for the keys used here.) -/
def get (j : Json) (k : String) : Option Json :=
  match j with
  | .obj fs => fs.lookup k
  | _ => none

/-- JS truthiness of a value. -/
def truthy : Json → Bool
  | .null => false
  | .bool b => b
  | .num n => n != 0
  | .str s => s ≠ ""
  | .arr _ => true
  | .obj _ => true

end Json

/-- JS truthiness of a possibly-`undefined` value (`undefined` is falsy). -/
def jsTruthy : Option Json → Bool
  | none => false
  | some v => v.truthy

/-- String escaping performed by `JSON.stringify` for the characters that can
occur in the verified code paths. -/
def escapeJsonChar (c : Char) : String :=
  if c = '"' then "\\\""
  else if c = '\\' then "\\\\"
  else if c = '\n' then "\\n"
  else if c = '\t' then "\\t"
  else if c = '\r' then "\\r"
  else String.singleton c

/-- Escape a string for JSON serialization (body of a string literal). -/
def escapeJsonString (s : String) : String :=
  s.data.foldl (fun acc c => acc ++ escapeJsonChar c) ""

mutual

/-- Compact `JSON.stringify(value)` (no indent argument), as used for
outbound request bodies in `src/client.ts`. -/
def Json.stringify : Json → String
  | .null => "null"
  | .bool b => if b then "true" else "false"
  | .num n => toString n
  | .str s => "\"" ++ escapeJsonString s ++ "\""
  | .arr xs => "[" ++ xs.stringifyElems ++ "]"
  | .obj fs => "\x7b" ++ fs.stringifyFields ++ "\x7d"

/-- Comma-separated serialization of array elements. -/
def JsonArray.stringifyElems : JsonArray → String
  | .nil => ""
  | .cons x .nil => x.stringify
  | .cons x (.cons y tl) => x.stringify ++ "," ++ (JsonArray.cons y tl).stringifyElems

/-- Comma-separated serialization of object fields. -/
def JsonObject.stringifyFields : JsonObject → String
  | .nil => ""
  | .cons k v .nil => "\"" ++ escapeJsonString k ++ "\":" ++ v.stringify
  | .cons k v (.cons k2 v2 tl) =>
      "\"" ++ escapeJsonString k ++ "\":" ++ v.stringify ++ ","
        ++ (JsonObject.cons k2 v2 tl).stringifyFields

end

mutual

/-- Model of `JSON.stringify(value, null, 2)`: pretty-printing with two-space
indentation, as used by the response formatters.  `ind` is the indentation
of the surrounding context. -/
def Json.stringify2 (ind : String) : Json → String
  | .null => "null"
  | .bool b => if b then "true" else "false"
  | .num n => toString n
  | .str s => "\"" ++ escapeJsonString s ++ "\""
  | .arr .nil => "[]"
  | .arr xs => "[\n" ++ xs.stringify2Elems (ind ++ "  ") ++ "\n" ++ ind ++ "]"
  | .obj .nil => "\x7b\x7d"
  | .obj fs => "\x7b\n" ++ fs.stringify2Fields (ind ++ "  ") ++ "\n" ++ ind ++ "\x7d"

/-- Pretty serialization of array elements, one per line at indent `ind`. -/
def JsonArray.stringify2Elems (ind : String) : JsonArray → String
  | .nil => ""
  | .cons x .nil => ind ++ x.stringify2 ind
  | .cons x (.cons y tl) =>
      ind ++ x.stringify2 ind ++ ",\n" ++ (JsonArray.cons y tl).stringify2Elems ind

/-- Pretty serialization of object fields, one per line at indent `ind`. -/
def JsonObject.stringify2Fields (ind : String) : JsonObject → String
  | .nil => ""
  | .cons k v .nil => ind ++ "\"" ++ escapeJsonString k ++ "\": " ++ v.stringify2 ind
  | .cons k v (.cons k2 v2 tl) =>
      ind ++ "\"" ++ escapeJsonString k ++ "\": " ++ v.stringify2 ind ++ ",\n"
        ++ (JsonObject.cons k2 v2 tl).stringify2Fields ind

end

/-- Top-level `JSON.stringify(value, null, 2)`. -/
def jsonStringify2 (j : Json) : String := j.stringify2 ""

mutual

/-- JS `String(value)` conversion (used by template-literal interpolation and
the `Error` constructor). -/
def Json.jsToString : Json → String
  | .null => "null"
  | .bool b => if b then "true" else "false"
  | .num n => toString n
  | .str s => s
  | .arr xs => xs.jsToStringElems
  | .obj _ => "[object Object]"

/-- Model of `Array.prototype.toString`: elements joined by `,`, with `null` rendered
as the empty string. -/
def JsonArray.jsToStringElems : JsonArray → String
  | .nil => ""
  | .cons x .nil => x.jsToStringElem
  | .cons x (.cons y tl) => x.jsToStringElem ++ "," ++ (JsonArray.cons y tl).jsToStringElems

/-- One element of `Array.prototype.join`. -/
def Json.jsToStringElem : Json → String
  | .null => ""
  | x => x.jsToString

end

/-- Template-literal interpolation of a possibly-`undefined` value:
`String(undefined)` is `"undefined"`. -/
def jsInterp : Option Json → String
  | none => "undefined"
  | some v => v.jsToString

/-- JS optional chaining `o?.k`: `undefined` when `o` is `undefined` or
`null`, otherwise the property read. -/
def optChainGet (o : Option Json) (k : String) : Option Json :=
  match o with
  | none => none
  | some .null => none
  | some v => v.get k

/-- The value of `x || '-'` interpolated into a template literal. -/
def jsOrDash (o : Option Json) : String :=
  if jsTruthy o then jsInterp o else "-"

/-- Numeric value of a nonempty run of decimal digits. -/
def decDigitsToNat (l : List Char) : Nat :=
  l.foldl (fun acc c => acc * 10 + (c.toNat - '0'.toNat)) 0

/-- The leading digit run of `parseInt`: `none` (`NaN`) when there is none. -/
def leadingDigits? (l : List Char) : Option Nat :=
  match l.takeWhile Char.isDigit with
  | [] => none
  | ds => some (decDigitsToNat ds)

/-- JS `parseInt(s, 10)`: skip leading whitespace, optional sign, read
leading decimal digits; `none` models `NaN` (no digits found). -/
def jsParseInt (s : String) : Option Int :=
  let l := s.data.dropWhile (fun c => c = ' ' || c = '\t' || c = '\n' || c = '\r')
  match l with
  | '-' :: rest => (leadingDigits? rest).map (fun n => -(n : Int))
  | '+' :: rest => (leadingDigits? rest).map (fun n => (n : Int))
  | rest => (leadingDigits? rest).map (fun n => (n : Int))

-- =============================================================================
-- Error taxonomy (src/utils/errors.ts)
-- =============================================================================

/-- Modelled from the spec: the module `src/utils/errors.ts` is not among the
provided sources (only its importers are).  Per spec §7 the taxonomy is
`AuthenticationError` (missing/invalid token — not retryable),
`RateLimitError` (429 — retryable, carries wait hint), `NotFoundError` (404),
and generic `AsanaApiError` (any other non-2xx, carries status code); plain
JS `Error`s are modelled by `jsError`.  `rateLimitError`'s wait hint is
`Option Int` with `none` = `NaN`. -/
inductive ThrownError where
  | asanaApiError (message : String) (status : Nat) : ThrownError
  | rateLimitError (message : String) (retryAfter : Option Int) : ThrownError
  | authenticationError (message : String) : ThrownError
  | notFoundError (resource : String) (path : String) : ThrownError
  | jsError (message : String) : ThrownError
deriving Repr, DecidableEq

namespace ThrownError

/-- Modelled from the spec: the four classified errors of spec §7's taxonomy
are instances of the base class `AsanaApiError` (tested by `instanceof` in
`formatError`); a plain `Error` is not. -/
def isAsanaApiError : ThrownError → Bool
  | .jsError _ => false
  | _ => true

/-- Modelled from the spec: only `RateLimitError` is retryable (spec §7 marks
`AuthenticationError` "not retryable" and `RateLimitError` "retryable";
nothing else is described as retryable and the code never auto-retries). -/
def retryable : ThrownError → Bool
  | .rateLimitError _ _ => true
  | _ => false

/-- The `Error.message` of the thrown error.  For `NotFoundError` the text is
modelled from the spec ("fail with a not-found error naming the resource and
path"); the other messages are the literal strings passed at the `throw`
sites in `src/client.ts`. -/
def message : ThrownError → String
  | .asanaApiError m _ => m
  | .rateLimitError m _ => m
  | .authenticationError m => m
  | .notFoundError r p => r ++ " not found: " ++ p
  | .jsError m => m

/-- Modelled from the spec: `formatErrorForLogging` (also in the missing
`src/utils/errors.ts`) produces the `details` object of the error envelope —
"error responses are always well-formed JSON with an `error` message string
and a `details` object" (spec §7). -/
def forLogging : ThrownError → Json
  | .asanaApiError m s =>
      Json.objOf [("name", .str "AsanaApiError"), ("message", .str m), ("status", .num s)]
  | .rateLimitError m w =>
      Json.objOf ([("name", .str "RateLimitError"), ("message", .str m)]
        ++ (match w with | some n => [("retryAfter", Json.num n)] | none => []))
  | .authenticationError m =>
      Json.objOf [("name", .str "AuthenticationError"), ("message", .str m)]
  | .notFoundError r p =>
      Json.objOf [("name", .str "NotFoundError"),
        ("message", .str (r ++ " not found: " ++ p))]
  | .jsError m => Json.objOf [("name", .str "Error"), ("message", .str m)]

end ThrownError

-- =============================================================================
-- Tenant credentials (src/types/env.ts, shipped inside types/entities.ts)
-- =============================================================================

/-- Model of `TenantCredentials`: the per-request bearer token. -/
structure TenantCredentials where
  accessToken : String
deriving Repr, DecidableEq

/-- The slice of an inbound `Request` the transport inspects: URL pathname,
method, and the `X-Asana-Access-Token` header (`none` = header absent). -/
structure InboundRequest where
  pathname : String
  method : String
  asanaAccessTokenHeader : Option String := none
deriving Repr

/-- Model of `parseTenantCredentials`: `accessToken` is
`headers.get('X-Asana-Access-Token') || ''` (absent header ⇒ `''`). -/
def parseTenantCredentials (r : InboundRequest) : TenantCredentials :=
  { accessToken :=
      match r.asanaAccessTokenHeader with
      | none => ""
      | some s => if s = "" then "" else s }

/-- Model of `validateCredentials`: throws when `accessToken` is falsy (the empty
string); the `Except.error` payload is the thrown `Error`'s message. -/
def validateCredentials (c : TenantCredentials) : Except String Unit :=
  if c.accessToken = "" then
    .error "Missing credentials. Provide X-Asana-Access-Token header with your Asana Personal Access Token."
  else
    .ok ()

-- =============================================================================
-- HTTP client adapter (src/client.ts)
-- =============================================================================

/-- The slice of an upstream `fetch` `Response` the adapter inspects: status,
the `Retry-After` header (`none` = absent), and the body parsed as JSON
(`none` = empty or unparseable body, on which `response.json()` throws). -/
structure HttpResponse where
  status : Nat
  retryAfterHeader : Option String := none
  body : Option Json := none
deriving Repr

/-- Model of `Response.ok`: status in the range 200–299. -/
def HttpResponse.ok (r : HttpResponse) : Bool :=
  200 ≤ r.status && r.status < 300

/-- Model of `getAuthHeaders`: throws `AuthenticationError` when the access token is
falsy, otherwise returns the bearer-auth header set. -/
def getAuthHeaders (c : TenantCredentials) : Except ThrownError (List (String × String)) :=
  if c.accessToken = "" then
    .error (.authenticationError
      "No access token provided. Include X-Asana-Access-Token header.")
  else
    .ok [("Authorization", "Bearer " ++ c.accessToken),
         ("Content-Type", "application/json"),
         ("Accept", "application/json")]

/-- The wait hint built at both 429 sites:
`retryAfter ? parseInt(retryAfter, 10) : 60` — absent or empty header gives
60; a present non-empty header is passed to `parseInt` (which yields `NaN`,
modelled `none`, when it does not parse). -/
def retryAfterHint (h : Option String) : Option Int :=
  match h with
  | none => some 60
  | some s => if s = "" then some 60 else jsParseInt s

/-- Model of `errors?.[0]`: first element of an array; property `"0"` of an object;
`undefined` otherwise. -/
def jsIndexZero : Json → Option Json
  | .arr xs => xs.head?
  | .obj fs => fs.lookup "0"
  | _ => none

/-- The error-message extraction of the generic non-2xx branch:
`errorJson.errors?.[0]?.message || errorJson.message || 'Asana API error: N'`
(falling back to the default when the body is not valid JSON). -/
def upstreamErrorMessage (status : Nat) (body : Option Json) : String :=
  let dflt := "Asana API error: " ++ toString status
  match body with
  | none => dflt
  | some j =>
      let errsIdx : Option Json :=
        match j.get "errors" with
        | none => none
        | some .null => none
        | some v => jsIndexZero v
      let c1 := optChainGet errsIdx "message"
      let c2 := j.get "message"
      if jsTruthy c1 then jsInterp c1
      else if jsTruthy c2 then jsInterp c2
      else dflt

/-- Model of `AsanaClientImpl.request`: classify the upstream response.  The result is
`Except`: `.error` models a `throw`; `.ok none` models resolving with
`undefined` (204 No Content, or a body without a `data` field); `.ok (some v)`
is the unwrapped `data` value.  The network is modelled by passing the
response the upstream would produce; when `getAuthHeaders` throws, the
result does not depend on `resp` (no fetch happens). -/
def requestResult (c : TenantCredentials) (endpoint : String) (resp : HttpResponse) :
    Except ThrownError (Option Json) :=
  match getAuthHeaders c with
  | .error e => .error e
  | .ok _ =>
      if resp.status == 429 then
        .error (.rateLimitError "Rate limit exceeded" (retryAfterHint resp.retryAfterHeader))
      else if resp.status == 401 || resp.status == 403 then
        .error (.authenticationError "Authentication failed. Check your Asana access token.")
      else if resp.status == 404 then
        .error (.notFoundError "Resource" endpoint)
      else if !resp.ok then
        .error (.asanaApiError (upstreamErrorMessage resp.status resp.body) resp.status)
      else if resp.status == 204 then
        .ok none
      else
        match resp.body with
        | some j => .ok (j.get "data")
        | none => .error (.jsError "Unexpected end of JSON input")

/-- The uniform paginated result: `data` is `json.data` and `nextPage` is
`json.next_page` passed through unmodified (`none` = the key was absent). -/
structure PaginatedResponse where
  data : List Json
  nextPage : Option Json := none
deriving Repr

/-- Model of `AsanaClientImpl.requestPaginated`: like `requestResult` but note that it
has no 404 branch — a 404 falls into the generic non-2xx branch and is
thrown as `AsanaApiError`, not `NotFoundError`.  The `as T[]` cast on
`json.data` is modelled as the identity on array bodies (the only bodies the
claims exercise); a non-array `data` is modelled as the empty list. -/
def requestPaginatedResult (c : TenantCredentials) (_endpoint : String) (resp : HttpResponse) :
    Except ThrownError PaginatedResponse :=
  match getAuthHeaders c with
  | .error e => .error e
  | .ok _ =>
      if resp.status == 429 then
        .error (.rateLimitError "Rate limit exceeded" (retryAfterHint resp.retryAfterHeader))
      else if resp.status == 401 || resp.status == 403 then
        .error (.authenticationError "Authentication failed. Check your Asana access token.")
      else if !resp.ok then
        .error (.asanaApiError (upstreamErrorMessage resp.status resp.body) resp.status)
      else
        match resp.body with
        | some j =>
            .ok { data := (match j.get "data" with | some (.arr xs) => xs.toList | _ => []),
                  nextPage := j.get "next_page" }
        | none => .error (.jsError "Unexpected end of JSON input")

-- =============================================================================
-- Response formatters (src/utils/formatters.ts)
-- =============================================================================

/-- The MCP `ToolResponse`: each content item is `{type:'text', text}`, so
`content` is modelled as the list of `text` strings; `isError` is optional
(`none` = the field is not set). -/
structure ToolResponse where
  content : List String
  isError : Option Bool := none
deriving Repr, DecidableEq

/-- The `format` argument of `formatResponse`. -/
inductive ResponseFormat where
  | json
  | markdown
deriving Repr, DecidableEq

/-- A value handed to the formatter: either a plain runtime value or the
`PaginatedResponse` record returned by the paginated client methods. -/
inductive FormatValue where
  | plain (j : Json)
  | paginated (p : PaginatedResponse)
deriving Repr

/-- The JSON value `JSON.stringify` sees for a `FormatValue` (for a
`PaginatedResponse` record an absent `next_page` left `nextPage` as
`undefined`, which `JSON.stringify` drops). -/
def FormatValue.toJson : FormatValue → Json
  | .plain j => j
  | .paginated p =>
      Json.objOf ([("data", Json.arrOf p.data)]
        ++ (match p.nextPage with | some np => [("nextPage", np)] | none => []))

/-- Model of `capitalize`: `str.charAt(0).toUpperCase() + str.slice(1)`. -/
def capitalize (s : String) : String :=
  match s.data with
  | [] => ""
  | c :: cs => String.mk (c.toUpper :: cs)

/-- Model of `formatKey`: snake_case to Title Case. -/
def formatKey (k : String) : String :=
  String.intercalate " " ((k.splitOn "_").map capitalize)

/-- The `lines.push` loop shared by every fixed-column table formatter:
header and separator rows, then one row per item in input order. -/
def tableLines (hdr sep : String) (row : Json → String) (items : List Json) : List String :=
  items.foldl (fun acc it => acc ++ [row it]) [hdr, sep]

/-- One row of `formatTasksTable`:
`| ${task.gid} | ${task.name || '-'} | ${task.assignee?.name || '-'} |
${task.due_on || task.due_at || '-'} | ${task.completed ? 'Yes' : 'No'} |`. -/
def taskAssigneeCell (t : Json) : String :=
  jsOrDash (optChainGet (t.get "assignee") "name")

/-- The Due cell: `task.due_on || task.due_at || '-'`. -/
def taskDueCell (t : Json) : String :=
  if jsTruthy (t.get "due_on") then jsInterp (t.get "due_on")
  else if jsTruthy (t.get "due_at") then jsInterp (t.get "due_at")
  else "-"

/-- The Completed cell: `task.completed ? 'Yes' : 'No'`. -/
def taskCompletedCell (t : Json) : String :=
  if jsTruthy (t.get "completed") then "Yes" else "No"

/-- The full task row template string. -/
def taskRow (t : Json) : String :=
  "| " ++ jsInterp (t.get "gid") ++ " | " ++ jsOrDash (t.get "name") ++ " | "
    ++ taskAssigneeCell t ++ " | " ++ taskDueCell t ++ " | "
    ++ taskCompletedCell t ++ " |"

/-- The `lines` array of `formatTasksTable`. -/
def formatTasksTableLines (tasks : List Json) : List String :=
  tableLines "| GID | Name | Assignee | Due | Completed |" "|---|---|---|---|---|"
    taskRow tasks

/-- Model of `formatTasksTable`. -/
def formatTasksTable (tasks : List Json) : String :=
  String.intercalate "\n" (formatTasksTableLines tasks)

/-- One row of `formatProjectsTable`. -/
def projectRow (p : Json) : String :=
  "| " ++ jsInterp (p.get "gid") ++ " | " ++ jsInterp (p.get "name") ++ " | "
    ++ jsOrDash (optChainGet (p.get "team") "name") ++ " | "
    ++ (if jsTruthy (p.get "archived") then "Yes" else "No") ++ " | "
    ++ jsOrDash (p.get "due_on") ++ " |"

/-- Model of `formatProjectsTable`. -/
def formatProjectsTable (projects : List Json) : String :=
  String.intercalate "\n"
    (tableLines "| GID | Name | Team | Archived | Due |" "|---|---|---|---|---|"
      projectRow projects)

/-- One row of `formatWorkspacesTable`. -/
def workspaceRow (w : Json) : String :=
  "| " ++ jsInterp (w.get "gid") ++ " | " ++ jsInterp (w.get "name") ++ " | "
    ++ (if jsTruthy (w.get "is_organization") then "Yes" else "No") ++ " |"

/-- Model of `formatWorkspacesTable`. -/
def formatWorkspacesTable (workspaces : List Json) : String :=
  String.intercalate "\n"
    (tableLines "| GID | Name | Organization |" "|---|---|---|" workspaceRow workspaces)

/-- One row of `formatTeamsTable`. -/
def teamRow (t : Json) : String :=
  "| " ++ jsInterp (t.get "gid") ++ " | " ++ jsInterp (t.get "name") ++ " | "
    ++ jsOrDash (t.get "visibility") ++ " |"

/-- Model of `formatTeamsTable`. -/
def formatTeamsTable (teams : List Json) : String :=
  String.intercalate "\n"
    (tableLines "| GID | Name | Visibility |" "|---|---|---|" teamRow teams)

/-- One row of `formatUsersTable`. -/
def userRow (u : Json) : String :=
  "| " ++ jsInterp (u.get "gid") ++ " | " ++ jsInterp (u.get "name") ++ " | "
    ++ jsOrDash (u.get "email") ++ " |"

/-- Model of `formatUsersTable`. -/
def formatUsersTable (users : List Json) : String :=
  String.intercalate "\n"
    (tableLines "| GID | Name | Email |" "|---|---|---|" userRow users)

/-- One row of `formatTagsTable`. -/
def tagRow (t : Json) : String :=
  "| " ++ jsInterp (t.get "gid") ++ " | " ++ jsInterp (t.get "name") ++ " | "
    ++ jsOrDash (t.get "color") ++ " |"

/-- Model of `formatTagsTable`. -/
def formatTagsTable (tags : List Json) : String :=
  String.intercalate "\n"
    (tableLines "| GID | Name | Color |" "|---|---|---|" tagRow tags)

/-- One row of `formatSectionsTable`. -/
def sectionRow (s : Json) : String :=
  "| " ++ jsInterp (s.get "gid") ++ " | " ++ jsInterp (s.get "name") ++ " | "
    ++ jsOrDash (optChainGet (s.get "project") "name") ++ " |"

/-- Model of `formatSectionsTable`. -/
def formatSectionsTable (sections : List Json) : String :=
  String.intercalate "\n"
    (tableLines "| GID | Name | Project |" "|---|---|---|" sectionRow sections)

/-- One row of `formatStoriesTable`. -/
def storyRow (s : Json) : String :=
  "| " ++ jsInterp (s.get "gid") ++ " | " ++ jsInterp (s.get "resource_subtype") ++ " | "
    ++ jsOrDash (optChainGet (s.get "created_by") "name") ++ " | "
    ++ jsOrDash (s.get "created_at") ++ " |"

/-- Model of `formatStoriesTable`. -/
def formatStoriesTable (stories : List Json) : String :=
  String.intercalate "\n"
    (tableLines "| GID | Type | Author | Created |" "|---|---|---|---|" storyRow stories)

/-- One row of `formatPortfoliosTable`. -/
def portfolioRow (p : Json) : String :=
  "| " ++ jsInterp (p.get "gid") ++ " | " ++ jsInterp (p.get "name") ++ " | "
    ++ jsOrDash (optChainGet (p.get "owner") "name") ++ " |"

/-- Model of `formatPortfoliosTable`. -/
def formatPortfoliosTable (portfolios : List Json) : String :=
  String.intercalate "\n"
    (tableLines "| GID | Name | Owner |" "|---|---|---|" portfolioRow portfolios)

/-- One row of `formatGoalsTable`. -/
def goalRow (g : Json) : String :=
  "| " ++ jsInterp (g.get "gid") ++ " | " ++ jsInterp (g.get "name") ++ " | "
    ++ jsOrDash (optChainGet (g.get "owner") "name") ++ " | "
    ++ jsOrDash (g.get "status") ++ " |"

/-- Model of `formatGoalsTable`. -/
def formatGoalsTable (goals : List Json) : String :=
  String.intercalate "\n"
    (tableLines "| GID | Name | Owner | Status |" "|---|---|---|---|" goalRow goals)

/-- The Resource cell of a webhook row:
`webhook.resource?.name || webhook.resource?.gid || '-'`. -/
def webhookResourceCell (w : Json) : String :=
  if jsTruthy (optChainGet (w.get "resource") "name") then
    jsInterp (optChainGet (w.get "resource") "name")
  else if jsTruthy (optChainGet (w.get "resource") "gid") then
    jsInterp (optChainGet (w.get "resource") "gid")
  else "-"

/-- One row of `formatWebhooksTable`. -/
def webhookRow (w : Json) : String :=
  "| " ++ jsInterp (w.get "gid") ++ " | " ++ jsOrDash (w.get "target") ++ " | "
    ++ (if jsTruthy (w.get "active") then "Yes" else "No") ++ " | "
    ++ webhookResourceCell w ++ " |"

/-- Model of `formatWebhooksTable`. -/
def formatWebhooksTable (webhooks : List Json) : String :=
  String.intercalate "\n"
    (tableLines "| GID | Target | Active | Resource |" "|---|---|---|---|"
      webhookRow webhooks)

/-- Model of `String(record[k] ?? '-')`: nullish coalescing renders both `undefined`
and `null` as `-`. -/
def genericCell (o : Option Json) : String :=
  match o with
  | none => "-"
  | some .null => "-"
  | some v => v.jsToString

/-- Model of `Object.keys` of a value (empty for non-objects as used here). -/
def jsObjectKeys : Json → List String
  | .obj fs => jsObjectKeysAux fs
  | _ => []
where
  jsObjectKeysAux : JsonObject → List String
    | .nil => []
    | .cons k _ tl => k :: jsObjectKeysAux tl

/-- Model of `formatGenericTable`: columns from the first item's keys (at most 5). -/
def formatGenericTable (items : List Json) : String :=
  match items with
  | [] => "_No items_"
  | first :: _ =>
      let keys := (jsObjectKeys first).take 5
      let lines :=
        ["| " ++ String.intercalate " | " keys ++ " |",
         "|" ++ String.intercalate "|" (keys.map (fun _ => "---")) ++ "|"]
      let lines := items.foldl
        (fun acc it =>
          acc ++ ["| " ++ String.intercalate " | " (keys.map (fun k => genericCell (it.get k))) ++ " |"])
        lines
      String.intercalate "\n" lines

/-- The `**More available:**` line printed when `data.nextPage` is truthy. -/
def moreAvailableLine (np : Json) : String :=
  "**More available:** Yes (offset: `" ++ jsInterp (np.get "offset") ++ "`)"

/-- The table block chosen by the `switch (entityType)` of
`formatPaginatedAsMarkdown`. -/
def entityTable (entityType : String) (items : List Json) : String :=
  match entityType with
  | "tasks" => formatTasksTable items
  | "projects" => formatProjectsTable items
  | "workspaces" => formatWorkspacesTable items
  | "teams" => formatTeamsTable items
  | "users" => formatUsersTable items
  | "tags" => formatTagsTable items
  | "sections" => formatSectionsTable items
  | "stories" => formatStoriesTable items
  | "portfolios" => formatPortfoliosTable items
  | "goals" => formatGoalsTable items
  | "webhooks" => formatWebhooksTable items
  | _ => formatGenericTable items

/-- The `lines` array of `formatPaginatedAsMarkdown`, including the final
no-items or table push. -/
def formatPaginatedLines (d : PaginatedResponse) (entityType : String) : List String :=
  let lines := ["## " ++ capitalize entityType, "",
                "**Showing:** " ++ toString d.data.length ++ " items"]
  let lines := lines ++
    (match d.nextPage with
     | some np => if np.truthy then [moreAvailableLine np] else []
     | none => [])
  let lines := lines ++ [""]
  if d.data.length == 0 then lines ++ ["_No items found._"]
  else lines ++ [entityTable entityType d.data]

/-- Model of `formatPaginatedAsMarkdown`. -/
def formatPaginatedAsMarkdown (d : PaginatedResponse) (entityType : String) : String :=
  String.intercalate "\n" (formatPaginatedLines d entityType)

/-- Model of `formatArrayAsMarkdown`: wrap in a `PaginatedResponse` with no
`nextPage`. -/
def formatArrayAsMarkdown (data : List Json) (entityType : String) : String :=
  formatPaginatedAsMarkdown { data := data } entityType

/-- Model of `typeof value === 'object'` for a non-null value. -/
def isObjectTyped : Json → Bool
  | .obj _ => true
  | .arr _ => true
  | _ => false

/-- The field loop of `formatObjectAsMarkdown`: skip `null` values, render
object/array values as fenced JSON blocks, others as `**Key:** value`. -/
def objectFieldLines : JsonObject → List String
  | .nil => []
  | .cons k v tl =>
      (match v with
       | .null => []
       | v =>
           if isObjectTyped v then
             ["**" ++ formatKey k ++ ":**", "```json", jsonStringify2 v, "```"]
           else
             ["**" ++ formatKey k ++ ":** " ++ v.jsToString])
      ++ objectFieldLines tl

/-- Model of `formatObjectAsMarkdown`: heading from the singularized entity type plus
the key/value lines. -/
def formatObjectAsMarkdown (fs : JsonObject) (entityType : String) : String :=
  let heading := "## " ++ capitalize
    (if entityType.endsWith "s" then entityType.dropRight 1 else entityType)
  String.intercalate "\n" (heading :: "" :: objectFieldLines fs)

/-- Model of `formatAsMarkdown`: the `isPaginatedResponse` duck-type test (any object
whose `data` field is an array) first, then arrays, then objects, then
`String(data)`. -/
def formatAsMarkdown : FormatValue → String → String
  | .paginated p, entityType => formatPaginatedAsMarkdown p entityType
  | .plain j, entityType =>
      match j with
      | .obj fs =>
          match fs.lookup "data" with
          | some (.arr xs) =>
              formatPaginatedAsMarkdown
                { data := xs.toList, nextPage := fs.lookup "nextPage" } entityType
          | _ => formatObjectAsMarkdown fs entityType
      | .arr xs => formatArrayAsMarkdown xs.toList entityType
      | other => other.jsToString

/-- Model of `formatResponse`: Markdown mode renders via `formatAsMarkdown`; JSON mode
is `JSON.stringify(data, null, 2)`.  `isError` is never set. -/
def formatResponse (data : FormatValue) (format : ResponseFormat) (entityType : String) :
    ToolResponse :=
  match format with
  | .markdown => { content := [formatAsMarkdown data entityType] }
  | .json => { content := [jsonStringify2 data.toJson] }

/-- The `message` built by `formatError`: `Error: ${message}` with
`' (retryable)'` appended when the error is an `AsanaApiError` instance whose
`retryable` flag is set.  (Every `ThrownError` models a JS `Error` instance,
so the final `String(error)` fallback of the source is unreachable.) -/
def formatErrorMessageLine (e : ThrownError) : String :=
  if e.isAsanaApiError && e.retryable then "Error: " ++ e.message ++ " (retryable)"
  else "Error: " ++ e.message

/-- Model of `formatError`: the uniform failure envelope
`{error: message, details: formatErrorForLogging(error)}` with
`isError: true`. -/
def formatError (e : ThrownError) : ToolResponse :=
  { content := [jsonStringify2 (Json.objOf
      [("error", .str (formatErrorMessageLine e)), ("details", e.forLogging)])],
    isError := some true }

/-- The `try/catch` wrapper shared by every tool handler: a successful client
result is formatted by the handler body, a thrown error is converted by
`formatError` and returned (never rethrown). -/
def toolHandle {α : Type} (r : Except ThrownError α) (onOk : α → ToolResponse) : ToolResponse :=
  match r with
  | .ok v => onOk v
  | .error e => formatError e

-- =============================================================================
-- Task tools (src/tools/tasks.ts) and the createTask client method
-- =============================================================================

/-- Model of `TaskCreateInput` as built by the `asana_create_task` handler: the object
literal passed to `client.createTask`, with `none` for an argument the caller
did not supply (`undefined`). -/
structure TaskCreateInput where
  name : String
  workspace : Option String := none
  projects : Option (List String) := none
  assignee : Option String := none
  due_on : Option String := none
  due_at : Option String := none
  start_on : Option String := none
  notes : Option String := none
  html_notes : Option String := none
  completed : Option Bool := none
  tags : Option (List String) := none
  parent : Option String := none
  resource_subtype : Option String := none
deriving Repr

/-- An optional field of a serialized object: `JSON.stringify` drops keys
whose value is `undefined`. -/
def optField (k : String) : Option Json → List (String × Json)
  | none => []
  | some v => [(k, v)]

/-- The JSON value `JSON.stringify` sees for the task-creation `data` object,
keys in the insertion order of the handler's object literal
(src/tools/tasks.ts lines 54–68), `undefined` fields dropped. -/
def taskCreateBody (d : TaskCreateInput) : Json :=
  Json.objOf ([("name", Json.str d.name)]
    ++ optField "workspace" (d.workspace.map Json.str)
    ++ optField "projects" (d.projects.map (fun l => Json.arrOf (l.map Json.str)))
    ++ optField "assignee" (d.assignee.map Json.str)
    ++ optField "due_on" (d.due_on.map Json.str)
    ++ optField "due_at" (d.due_at.map Json.str)
    ++ optField "start_on" (d.start_on.map Json.str)
    ++ optField "notes" (d.notes.map Json.str)
    ++ optField "html_notes" (d.html_notes.map Json.str)
    ++ optField "completed" (d.completed.map Json.bool)
    ++ optField "tags" (d.tags.map (fun l => Json.arrOf (l.map Json.str)))
    ++ optField "parent" (d.parent.map Json.str)
    ++ optField "resource_subtype" (d.resource_subtype.map Json.str))

/-- The outbound HTTP request a client method hands to `request`. -/
structure OutboundRequest where
  endpoint : String
  method : String
  body : Option String := none
deriving Repr, DecidableEq

/-- Model of `AsanaClientImpl.createTask`: `request('/tasks', {method: 'POST',
body: JSON.stringify({data})})`. -/
def createTaskRequest (d : TaskCreateInput) : OutboundRequest :=
  { endpoint := "/tasks", method := "POST",
    body := some (Json.objOf [("data", taskCreateBody d)]).stringify }

/-- The result of `client.createTask` given the upstream response. -/
def createTaskResult (c : TenantCredentials) (d : TaskCreateInput) (resp : HttpResponse) :
    Except ThrownError (Option Json) :=
  requestResult c (createTaskRequest d).endpoint resp

/-- The `asana_create_task` handler: on success it returns
`JSON.stringify({success: true, message: 'Task created', task}, null, 2)`
(an `undefined` task would be dropped by `JSON.stringify`); a thrown error is
converted by `formatError`. -/
def createTaskToolResponse (c : TenantCredentials) (d : TaskCreateInput)
    (resp : HttpResponse) : ToolResponse :=
  toolHandle (createTaskResult c d resp) (fun task =>
    { content := [jsonStringify2 (Json.objOf
        ([("success", .bool true), ("message", .str "Task created")]
          ++ optField "task" task))] })

/-- The `asana_get_task` handler (no `optFields`, so the query string is
empty): `formatResponse(task, format, 'task')` on success, `formatError` on a
thrown error.  A GET never yields 204, so the `undefined` result arm is not
exercised; it is modelled as JSON `null`. -/
def getTaskToolResponse (c : TenantCredentials) (taskGid : String)
    (format : ResponseFormat) (resp : HttpResponse) : ToolResponse :=
  toolHandle (requestResult c ("/tasks/" ++ taskGid) resp) (fun task =>
    formatResponse (.plain (match task with | some v => v | none => .null)) format "task")

-- =============================================================================
-- Transport entrypoint (src/index.ts fetch handler)
-- =============================================================================

/-- Model of `SERVER_NAME`. -/
def serverName : String := "primrose-mcp-asana"

/-- Model of `SERVER_VERSION`. -/
def serverVersion : String := "1.0.0"

/-- The result of the worker `fetch` handler: either a direct HTTP response,
or the hand-off of the request to the per-request MCP server (only there can
outbound Asana calls be made). -/
inductive TransportResult where
  | jsonResponse (status : Nat) (body : Json) : TransportResult
  | textResponse (status : Nat) (text : String) : TransportResult
  | dispatchMcp (credentials : TenantCredentials) : TransportResult
deriving Repr

/-- The `/health` response body. -/
def healthBody : Json :=
  Json.objOf [("status", .str "ok"), ("server", .str serverName)]

/-- The 401 response body for a failed credential validation (`msg` is the
thrown error's message). -/
def unauthorizedBody (msg : String) : Json :=
  Json.objOf [("error", .str "Unauthorized"), ("message", .str msg),
    ("required_headers", Json.arrOf [.str "X-Asana-Access-Token"])]

/-- The `/sse` 501 response text. -/
def sseText : String :=
  "SSE endpoint requires Durable Objects. Enable in wrangler.jsonc."

/-- The tool-name catalog of the default capability document
(src/index.ts lines 198–257). -/
def capabilityToolNames : List String :=
  ["asana_list_workspaces", "asana_get_workspace", "asana_update_workspace",
   "asana_add_user_to_workspace", "asana_remove_user_from_workspace",
   "asana_get_me", "asana_get_user", "asana_list_workspace_users",
   "asana_create_team", "asana_get_team", "asana_update_team",
   "asana_list_teams", "asana_list_user_teams", "asana_list_team_users",
   "asana_add_user_to_team", "asana_remove_user_from_team",
   "asana_create_project", "asana_get_project", "asana_update_project",
   "asana_delete_project", "asana_duplicate_project", "asana_list_projects",
   "asana_get_project_task_counts", "asana_add_members_to_project",
   "asana_remove_members_from_project", "asana_create_project_status",
   "asana_list_project_statuses",
   "asana_create_section", "asana_get_section", "asana_update_section",
   "asana_delete_section", "asana_list_project_sections",
   "asana_add_task_to_section", "asana_move_section",
   "asana_create_task", "asana_get_task", "asana_update_task",
   "asana_delete_task", "asana_duplicate_task", "asana_list_tasks",
   "asana_list_project_tasks", "asana_list_section_tasks", "asana_search_tasks",
   "asana_create_subtask", "asana_list_subtasks", "asana_set_parent_task",
   "asana_add_project_to_task", "asana_remove_project_from_task",
   "asana_add_tag_to_task", "asana_remove_tag_from_task",
   "asana_add_followers_to_task", "asana_list_task_dependencies",
   "asana_add_task_dependencies", "asana_remove_task_dependencies",
   "asana_list_task_dependents",
   "asana_create_tag", "asana_get_tag", "asana_update_tag",
   "asana_delete_tag", "asana_list_tags", "asana_list_task_tags",
   "asana_list_tag_tasks",
   "asana_add_comment", "asana_get_story", "asana_update_comment",
   "asana_delete_comment", "asana_list_task_stories",
   "asana_get_attachment", "asana_delete_attachment", "asana_list_task_attachments",
   "asana_create_custom_field", "asana_get_custom_field", "asana_update_custom_field",
   "asana_delete_custom_field", "asana_list_custom_fields",
   "asana_add_custom_field_to_project", "asana_remove_custom_field_from_project",
   "asana_create_portfolio", "asana_get_portfolio", "asana_update_portfolio",
   "asana_delete_portfolio", "asana_list_portfolios", "asana_list_portfolio_items",
   "asana_add_item_to_portfolio", "asana_remove_item_from_portfolio",
   "asana_add_members_to_portfolio", "asana_remove_members_from_portfolio",
   "asana_create_goal", "asana_get_goal", "asana_update_goal",
   "asana_delete_goal", "asana_list_goals", "asana_add_followers_to_goal",
   "asana_list_goal_parent_goals", "asana_list_goal_relationships",
   "asana_add_supporting_relationship", "asana_remove_supporting_relationship",
   "asana_create_webhook", "asana_get_webhook", "asana_update_webhook",
   "asana_delete_webhook", "asana_list_webhooks",
   "asana_typeahead",
   "asana_test_connection"]

/-- The default capability document returned for any unrouted path/method. -/
def capabilityDoc : Json :=
  Json.objOf
    [("name", .str serverName),
     ("version", .str serverVersion),
     ("description", .str "Multi-tenant Asana MCP Server"),
     ("endpoints", Json.objOf
       [("mcp", .str "/mcp (POST) - Streamable HTTP MCP endpoint"),
        ("health", .str "/health - Health check")]),
     ("authentication", Json.objOf
       [("description", .str "Pass your Asana access token via request headers"),
        ("required_headers", Json.objOf
          [("X-Asana-Access-Token", .str "Asana Personal Access Token or OAuth access token")])]),
     ("tools", Json.arrOf (capabilityToolNames.map Json.str))]

/-- The worker `fetch` handler (src/index.ts lines 132–263): `/health` first
(no credential check), then `POST /mcp` (credential parse + validate, 401 on
failure, MCP dispatch on success), then `/sse` (static 501), then the
capability document. -/
def transportFetch (req : InboundRequest) : TransportResult :=
  if req.pathname = "/health" then
    .jsonResponse 200 healthBody
  else if req.pathname = "/mcp" && req.method = "POST" then
    let credentials := parseTenantCredentials req
    match validateCredentials credentials with
    | .error msg => .jsonResponse 401 (unauthorizedBody msg)
    | .ok _ => .dispatchMcp credentials
  else if req.pathname = "/sse" then
    .textResponse 501 sseText
  else
    .jsonResponse 200 capabilityDoc

/-- Whether a transport result hands the request off to the MCP server (the
only result through which outbound Asana calls can happen). -/
def TransportResult.isDispatch : TransportResult → Bool
  | .dispatchMcp _ => true
  | _ => false

/-- Whether a thrown error is the `NotFoundError` class. -/
def ThrownError.isNotFoundError : ThrownError → Bool
  | .notFoundError _ _ => true
  | _ => false

/-- Whether a thrown error is the `RateLimitError` class. -/
def ThrownError.isRateLimitError : ThrownError → Bool
  | .rateLimitError _ _ => true
  | _ => false

/-- The exact argument object of the C8 scenario:
`asana_create_task({name: "Ship spec", workspace: "999"})`. -/
def shipSpecInput : TaskCreateInput := { name := "Ship spec", workspace := some "999" }

-- =============================================================================
-- Helper lemmas
-- =============================================================================

theorem foldl_push_eq_map {α β : Type} (f : α → β) (l : List α) :
    ∀ init : List β, l.foldl (fun acc x => acc ++ [f x]) init = init ++ l.map f := by
  induction l with
  | nil => intro init; simp
  | cons x xs ih =>
      intro init
      simp only [List.foldl, List.map]
      rw [ih (init ++ [f x])]
      simp

theorem tableLines_eq_map (hdr sep : String) (row : Json → String) (items : List Json) :
    tableLines hdr sep row items = hdr :: sep :: items.map row := by
  unfold tableLines
  rw [foldl_push_eq_map]
  rfl

-- =============================================================================
-- Claims
-- =============================================================================

/-- C1: a POST to `/mcp` whose `X-Asana-Access-Token` header is missing or
empty gets HTTP 401 with body `{error, message, required_headers:
["X-Asana-Access-Token"]}`, and the request is never dispatched to the MCP
server, so no outbound Asana call can be attempted. -/
theorem mcp_post_missing_token_401 (req : InboundRequest)
    (hpath : req.pathname = "/mcp") (hmethod : req.method = "POST")
    (htok : req.asanaAccessTokenHeader = none ∨ req.asanaAccessTokenHeader = some "") :
    transportFetch req = .jsonResponse 401 (Json.objOf
      [("error", .str "Unauthorized"),
       ("message", .str "Missing credentials. Provide X-Asana-Access-Token header with your Asana Personal Access Token."),
       ("required_headers", Json.arrOf [.str "X-Asana-Access-Token"])])
    ∧ (transportFetch req).isDispatch = false := by
  have hcred : parseTenantCredentials req = ⟨""⟩ := by
    rcases htok with h | h <;> simp [parseTenantCredentials, h]
  rcases htok with h | h <;>
    simp [transportFetch, hpath, hmethod, hcred, validateCredentials,
      unauthorizedBody, TransportResult.isDispatch]

theorem mcp_post_missing_token_401_witness :
    transportFetch ⟨"/mcp", "POST", none⟩ = .jsonResponse 401 (Json.objOf
      [("error", .str "Unauthorized"),
       ("message", .str "Missing credentials. Provide X-Asana-Access-Token header with your Asana Personal Access Token."),
       ("required_headers", Json.arrOf [.str "X-Asana-Access-Token"])])
    ∧ (transportFetch ⟨"/mcp", "POST", none⟩).isDispatch = false :=
  mcp_post_missing_token_401 ⟨"/mcp", "POST", none⟩ rfl rfl (Or.inl rfl)

/-- C9: transport routing — `/health` answers the static status document
without looking at credentials, `/sse` answers 501 for every method, only
`POST /mcp` can be dispatched to the MCP handler, and every other
path/method combination gets the capability document. -/
theorem transport_routing (req : InboundRequest) :
    (req.pathname = "/health" → transportFetch req = .jsonResponse 200 healthBody)
  ∧ (req.pathname = "/sse" → transportFetch req = .textResponse 501 sseText)
  ∧ (∀ creds, transportFetch req = .dispatchMcp creds →
      req.pathname = "/mcp" ∧ req.method = "POST")
  ∧ (req.pathname ≠ "/health" → req.pathname ≠ "/sse" →
      ¬(req.pathname = "/mcp" ∧ req.method = "POST") →
      transportFetch req = .jsonResponse 200 capabilityDoc) := by
  refine ⟨?_, ?_, ?_, ?_⟩
  · intro h; simp [transportFetch, h]
  · intro h; simp [transportFetch, h]
  · intro creds h
    by_cases h1 : req.pathname = "/health"
    · simp [transportFetch, h1] at h
    · by_cases h2 : req.pathname = "/mcp" ∧ req.method = "POST"
      · exact h2
      · by_cases h3 : req.pathname = "/sse"
        · simp [transportFetch, h1, h3] at h
        · have h2' : (req.pathname = "/mcp" && req.method = "POST") = false := by
            rw [Bool.eq_false_iff]
            intro hb
            exact h2 (by simpa using hb)
          simp [transportFetch, h1, h2', h3] at h
  · intro h1 h3 h2
    have h2' : (req.pathname = "/mcp" && req.method = "POST") = false := by
      rw [Bool.eq_false_iff]
      intro hb
      exact h2 (by simpa using hb)
    simp [transportFetch, h1, h2', h3]

theorem transport_routing_witness :
    ("/health" = "/health" → transportFetch ⟨"/health", "GET", none⟩ = .jsonResponse 200 healthBody)
  ∧ ("/health" = "/sse" → transportFetch ⟨"/health", "GET", none⟩ = .textResponse 501 sseText)
  ∧ (∀ creds, transportFetch ⟨"/health", "GET", none⟩ = .dispatchMcp creds →
      ("/health" : String) = "/mcp" ∧ ("GET" : String) = "POST")
  ∧ (("/health" : String) ≠ "/health" → ("/health" : String) ≠ "/sse" →
      ¬(("/health" : String) = "/mcp" ∧ ("GET" : String) = "POST") →
      transportFetch ⟨"/health", "GET", none⟩ = .jsonResponse 200 capabilityDoc) :=
  transport_routing ⟨"/health", "GET", none⟩

/-- C10: with an empty access token every client operation fails with
`AuthenticationError` from `getAuthHeaders`, and since the failure does not
depend on the upstream response at all (both results are the same for every
`resp`), no outbound fetch is ever consulted. -/
theorem empty_token_fails_before_fetch (endpoint : String) (resp : HttpResponse) :
    requestResult ⟨""⟩ endpoint resp = .error (.authenticationError
      "No access token provided. Include X-Asana-Access-Token header.")
  ∧ requestPaginatedResult ⟨""⟩ endpoint resp = .error (.authenticationError
      "No access token provided. Include X-Asana-Access-Token header.") := by
  constructor <;> rfl

theorem empty_token_fails_before_fetch_witness :
    requestResult ⟨""⟩ "/tasks/12345" { status := 200 } = .error (.authenticationError
      "No access token provided. Include X-Asana-Access-Token header.")
  ∧ requestPaginatedResult ⟨""⟩ "/tasks/12345" { status := 200 } = .error (.authenticationError
      "No access token provided. Include X-Asana-Access-Token header.") :=
  empty_token_fails_before_fetch "/tasks/12345" { status := 200 }

/-- C2 counterexample: a 429 with `Retry-After: abc` (present but not an
integer) produces a wait hint of `NaN` (`none`), not the claimed 60 — the
code is `retryAfter ? parseInt(retryAfter, 10) : 60`, so a present invalid
header is handed to `parseInt` and the 60 default is not used. -/
theorem retry_after_invalid_header_counterexample :
    requestResult ⟨"tok"⟩ "/tasks" { status := 429, retryAfterHeader := some "abc" }
      = .error (.rateLimitError "Rate limit exceeded" none)
  ∧ requestPaginatedResult ⟨"tok"⟩ "/tasks" { status := 429, retryAfterHeader := some "abc" }
      = .error (.rateLimitError "Rate limit exceeded" none)
  ∧ retryAfterHint (some "abc") ≠ some 60 :=
  ⟨rfl, rfl, by decide⟩

/-- C2 amended: on 429 both request paths fail with a `RateLimitError` whose
wait hint is `retryAfter ? parseInt(retryAfter, 10) : 60` — the parsed value
for a valid integer header (30 → 30), 60 when the header is absent or empty,
and `NaN` (`none`) when the header is present but does not parse as an
integer. -/
theorem rate_limit_wait_hint (c : TenantCredentials) (endpoint : String) (resp : HttpResponse)
    (htok : c.accessToken ≠ "") (h429 : resp.status = 429) :
    requestResult c endpoint resp
      = .error (.rateLimitError "Rate limit exceeded" (retryAfterHint resp.retryAfterHeader))
  ∧ requestPaginatedResult c endpoint resp
      = .error (.rateLimitError "Rate limit exceeded" (retryAfterHint resp.retryAfterHeader))
  ∧ retryAfterHint (some "30") = some 30
  ∧ retryAfterHint none = some 60
  ∧ retryAfterHint (some "") = some 60
  ∧ retryAfterHint (some "abc") = none := by
  refine ⟨?_, ?_, rfl, rfl, rfl, rfl⟩
  · simp [requestResult, getAuthHeaders, htok, h429]
  · simp [requestPaginatedResult, getAuthHeaders, htok, h429]

theorem rate_limit_wait_hint_witness :
    requestResult ⟨"tok"⟩ "/tasks" { status := 429, retryAfterHeader := some "30" }
      = .error (.rateLimitError "Rate limit exceeded" (retryAfterHint (some "30")))
  ∧ requestPaginatedResult ⟨"tok"⟩ "/tasks" { status := 429, retryAfterHeader := some "30" }
      = .error (.rateLimitError "Rate limit exceeded" (retryAfterHint (some "30")))
  ∧ retryAfterHint (some "30") = some 30
  ∧ retryAfterHint none = some 60
  ∧ retryAfterHint (some "") = some 60
  ∧ retryAfterHint (some "abc") = none :=
  rate_limit_wait_hint ⟨"tok"⟩ "/tasks" { status := 429, retryAfterHeader := some "30" }
    (by decide) rfl

/-- C3 counterexample: the paginated path has no 404 branch, so a 404 there
is thrown as a generic `AsanaApiError` (here with the default message, the
body being unparseable), not as a `NotFoundError`. -/
theorem paginated_404_counterexample :
    requestPaginatedResult ⟨"tok"⟩ "/tasks" { status := 404 }
      = .error (.asanaApiError "Asana API error: 404" 404)
  ∧ (ThrownError.asanaApiError "Asana API error: 404" 404).isNotFoundError = false :=
  ⟨rfl, rfl⟩

/-- C3 amended: a 404 on the single-resource path fails with a
`NotFoundError` naming the resource and the requested path, and when it comes
from a tool handler it surfaces through `formatError` with `isError: true`;
the paginated path instead throws the generic `AsanaApiError` carrying status
404 (it has no `NotFoundError` branch). -/
theorem not_found_classification (c : TenantCredentials) (endpoint taskGid : String)
    (format : ResponseFormat) (resp : HttpResponse)
    (htok : c.accessToken ≠ "") (h404 : resp.status = 404) :
    requestResult c endpoint resp = .error (.notFoundError "Resource" endpoint)
  ∧ requestPaginatedResult c endpoint resp
      = .error (.asanaApiError (upstreamErrorMessage resp.status resp.body) resp.status)
  ∧ getTaskToolResponse c taskGid format resp
      = formatError (.notFoundError "Resource" ("/tasks/" ++ taskGid))
  ∧ (getTaskToolResponse c taskGid format resp).isError = some true := by
  have hreq : ∀ ep, requestResult c ep resp = .error (.notFoundError "Resource" ep) := by
    intro ep
    simp [requestResult, getAuthHeaders, htok, h404]
  refine ⟨hreq endpoint, ?_, ?_, ?_⟩
  · simp [requestPaginatedResult, getAuthHeaders, htok, h404, HttpResponse.ok]
  · simp [getTaskToolResponse, toolHandle, hreq]
  · simp [getTaskToolResponse, toolHandle, hreq, formatError]

theorem not_found_classification_witness :
    requestResult ⟨"tok"⟩ "/goals/7" { status := 404 }
      = .error (.notFoundError "Resource" "/goals/7")
  ∧ requestPaginatedResult ⟨"tok"⟩ "/goals/7" { status := 404 }
      = .error (.asanaApiError
          (upstreamErrorMessage (HttpResponse.status { status := 404 })
            (HttpResponse.body { status := 404 }))
          (HttpResponse.status { status := 404 }))
  ∧ getTaskToolResponse ⟨"tok"⟩ "12345" .json { status := 404 }
      = formatError (.notFoundError "Resource" ("/tasks/" ++ "12345"))
  ∧ (getTaskToolResponse ⟨"tok"⟩ "12345" .json { status := 404 }).isError = some true :=
  not_found_classification ⟨"tok"⟩ "/goals/7" "12345" .json { status := 404 }
    (by decide) rfl

/-- C4: a 2xx single-resource response with a body yields exactly the inner
value of the one-level `{data: T}` envelope (and JSON-mode formatting of that
value is its serialization verbatim), while a 204 yields the empty success
result (`undefined`, modelled `none`). -/
theorem single_resource_unwrap (c : TenantCredentials) (endpoint : String) (resp : HttpResponse)
    (htok : c.accessToken ≠ "") :
    (∀ j v, resp.ok = true → resp.status ≠ 204 → resp.body = some j →
        j.get "data" = some v →
        requestResult c endpoint resp = .ok (some v)
      ∧ ∀ entityType, formatResponse (.plain v) .json entityType
          = { content := [jsonStringify2 v], isError := none })
  ∧ (resp.status = 204 → requestResult c endpoint resp = .ok none) := by
  constructor
  · intro j v hok h204 hbody hdata
    have hst : 200 ≤ resp.status ∧ resp.status < 300 := by
      simpa [HttpResponse.ok] using hok
    have h429 : resp.status ≠ 429 := by omega
    have h401 : resp.status ≠ 401 := by omega
    have h403 : resp.status ≠ 403 := by omega
    have h404 : resp.status ≠ 404 := by omega
    constructor
    · simp [requestResult, getAuthHeaders, htok, hok, hbody, hdata,
        beq_iff_eq, h429, h401, h403, h404, h204]
    · intro entityType
      simp [formatResponse, FormatValue.toJson]
  · intro h204
    simp [requestResult, getAuthHeaders, htok, h204, HttpResponse.ok]

theorem single_resource_unwrap_witness :
    (∀ j v, HttpResponse.ok { status := 200, body := some (Json.objOf
          [("data", Json.objOf [("gid", .str "12345")])]) } = true →
        HttpResponse.status { status := 200, body := some (Json.objOf
          [("data", Json.objOf [("gid", .str "12345")])]) } ≠ 204 →
        HttpResponse.body { status := 200, body := some (Json.objOf
          [("data", Json.objOf [("gid", .str "12345")])]) } = some j →
        j.get "data" = some v →
        requestResult ⟨"tok"⟩ "/tasks/12345" { status := 200, body := some (Json.objOf
          [("data", Json.objOf [("gid", .str "12345")])]) } = .ok (some v)
      ∧ ∀ entityType, formatResponse (.plain v) .json entityType
          = { content := [jsonStringify2 v], isError := none })
  ∧ (HttpResponse.status { status := 200, body := some (Json.objOf
        [("data", Json.objOf [("gid", .str "12345")])]) } = 204 →
      requestResult ⟨"tok"⟩ "/tasks/12345" { status := 200, body := some (Json.objOf
        [("data", Json.objOf [("gid", .str "12345")])]) } = .ok none) :=
  single_resource_unwrap ⟨"tok"⟩ "/tasks/12345"
    { status := 200, body := some (Json.objOf [("data", Json.objOf [("gid", .str "12345")])]) }
    (by decide)

/-- C5: a paginated 2xx response carrying `next_page:{offset:"..."}` yields a
result whose pagination descriptor is that `next_page` object unmodified (its
`offset` preserved, and printed in the Markdown `**More available:**` line);
when `next_page` is absent the result has no pagination descriptor. -/
theorem pagination_offset_preserved (c : TenantCredentials) (endpoint off : String)
    (xs : JsonArray) (npRest : JsonObject) (resp respAbsent : HttpResponse)
    (htok : c.accessToken ≠ "")
    (hok : resp.ok = true)
    (hbody : resp.body = some (Json.objOf [("data", .arr xs),
        ("next_page", .obj (.cons "offset" (.str off) npRest))]))
    (hok2 : respAbsent.ok = true)
    (hbody2 : respAbsent.body = some (Json.objOf [("data", .arr xs)])) :
    requestPaginatedResult c endpoint resp
      = .ok { data := xs.toList, nextPage := some (.obj (.cons "offset" (.str off) npRest)) }
  ∧ (∀ entityType,
      moreAvailableLine (.obj (.cons "offset" (.str off) npRest))
          = "**More available:** Yes (offset: `" ++ off ++ "`)"
      ∧ moreAvailableLine (.obj (.cons "offset" (.str off) npRest))
          ∈ formatPaginatedLines
              { data := xs.toList,
                nextPage := some (.obj (.cons "offset" (.str off) npRest)) } entityType)
  ∧ requestPaginatedResult c endpoint respAbsent
      = .ok { data := xs.toList, nextPage := none } := by
  have hst : 200 ≤ resp.status ∧ resp.status < 300 := by
    simpa [HttpResponse.ok] using hok
  have hst2 : 200 ≤ respAbsent.status ∧ respAbsent.status < 300 := by
    simpa [HttpResponse.ok] using hok2
  refine ⟨?_, ?_, ?_⟩
  · have h429 : resp.status ≠ 429 := by omega
    have h401 : resp.status ≠ 401 := by omega
    have h403 : resp.status ≠ 403 := by omega
    simp [requestPaginatedResult, getAuthHeaders, htok, hok, hbody,
      beq_iff_eq, h429, h401, h403, Json.get, Json.objOf, JsonObject.ofList,
      JsonObject.lookup]
  · intro entityType
    constructor
    · simp [moreAvailableLine, Json.get, JsonObject.lookup, jsInterp, Json.jsToString]
    · simp only [formatPaginatedLines, Json.truthy]
      split <;> simp
  · have h429 : respAbsent.status ≠ 429 := by omega
    have h401 : respAbsent.status ≠ 401 := by omega
    have h403 : respAbsent.status ≠ 403 := by omega
    simp [requestPaginatedResult, getAuthHeaders, htok, hok2, hbody2,
      beq_iff_eq, h429, h401, h403, Json.get, Json.objOf, JsonObject.ofList,
      JsonObject.lookup]

theorem pagination_offset_preserved_witness :
    requestPaginatedResult ⟨"tok"⟩ "/tasks"
        { status := 200, body := some (Json.objOf [("data", .arr .nil),
            ("next_page", .obj (.cons "offset" (.str "abc") .nil))]) }
      = .ok { data := JsonArray.nil.toList,
              nextPage := some (.obj (.cons "offset" (.str "abc") .nil)) }
  ∧ (∀ entityType,
      moreAvailableLine (.obj (.cons "offset" (.str "abc") .nil))
          = "**More available:** Yes (offset: `" ++ "abc" ++ "`)"
      ∧ moreAvailableLine (.obj (.cons "offset" (.str "abc") .nil))
          ∈ formatPaginatedLines
              { data := JsonArray.nil.toList,
                nextPage := some (.obj (.cons "offset" (.str "abc") .nil)) } entityType)
  ∧ requestPaginatedResult ⟨"tok"⟩ "/tasks"
        { status := 200, body := some (Json.objOf [("data", .arr .nil)]) }
      = .ok { data := JsonArray.nil.toList, nextPage := none } :=
  pagination_offset_preserved ⟨"tok"⟩ "/tasks" "abc" .nil .nil
    { status := 200, body := some (Json.objOf [("data", .arr .nil),
        ("next_page", .obj (.cons "offset" (.str "abc") .nil))]) }
    { status := 200, body := some (Json.objOf [("data", .arr .nil)]) }
    (by decide) (by decide) rfl (by decide) rfl

/-- C6: the tasks Markdown table renders a header, a separator, and exactly
one row per input task in input order; in a row, a missing `assignee` renders
as `-` and a task with neither `due_on` nor `due_at` renders its Due column
as `-`. -/
theorem tasks_table_rows (ts : List Json) :
    formatTasksTableLines ts
      = "| GID | Name | Assignee | Due | Completed |" :: "|---|---|---|---|---|"
          :: ts.map taskRow
  ∧ (∀ t, taskRow t = "| " ++ jsInterp (t.get "gid") ++ " | " ++ jsOrDash (t.get "name")
      ++ " | " ++ taskAssigneeCell t ++ " | " ++ taskDueCell t ++ " | "
      ++ taskCompletedCell t ++ " |")
  ∧ (∀ t, t.get "assignee" = none → taskAssigneeCell t = "-")
  ∧ (∀ t, t.get "due_on" = none → t.get "due_at" = none → taskDueCell t = "-")
  ∧ formatTasksTable ts = String.intercalate "\n" (formatTasksTableLines ts) := by
  refine ⟨tableLines_eq_map _ _ _ _, fun t => rfl, ?_, ?_, rfl⟩
  · intro t h
    simp [taskAssigneeCell, optChainGet, h, jsOrDash, jsTruthy]
  · intro t h1 h2
    simp [taskDueCell, h1, h2, jsTruthy]

theorem tasks_table_rows_witness :
    formatTasksTableLines [Json.objOf [("gid", .str "1"), ("name", .str "Ship spec")],
        Json.objOf [("gid", .str "2")]]
      = "| GID | Name | Assignee | Due | Completed |" :: "|---|---|---|---|---|"
          :: [Json.objOf [("gid", .str "1"), ("name", .str "Ship spec")],
              Json.objOf [("gid", .str "2")]].map taskRow
  ∧ (∀ t, taskRow t = "| " ++ jsInterp (t.get "gid") ++ " | " ++ jsOrDash (t.get "name")
      ++ " | " ++ taskAssigneeCell t ++ " | " ++ taskDueCell t ++ " | "
      ++ taskCompletedCell t ++ " |")
  ∧ (∀ t, t.get "assignee" = none → taskAssigneeCell t = "-")
  ∧ (∀ t, t.get "due_on" = none → t.get "due_at" = none → taskDueCell t = "-")
  ∧ formatTasksTable [Json.objOf [("gid", .str "1"), ("name", .str "Ship spec")],
        Json.objOf [("gid", .str "2")]]
      = String.intercalate "\n" (formatTasksTableLines
          [Json.objOf [("gid", .str "1"), ("name", .str "Ship spec")],
           Json.objOf [("gid", .str "2")]]) :=
  tasks_table_rows [Json.objOf [("gid", .str "1"), ("name", .str "Ship spec")],
    Json.objOf [("gid", .str "2")]]

/-- C7: every error caught by a tool handler is returned (not propagated) as
a `JSON.stringify`-ed `{error, details}` envelope flagged `isError: true`;
the `' (retryable)'` annotation is appended exactly for a classified
retryable API error — equivalently, exactly for a rate-limit error; and a 401
HTTP response can only come from the transport-level credential check. -/
theorem error_envelope (e : ThrownError) :
    formatError e = { content := [jsonStringify2 (Json.objOf
                        [("error", .str (formatErrorMessageLine e)),
                         ("details", e.forLogging)])],
                      isError := some true }
  ∧ formatErrorMessageLine e
      = (if e.isAsanaApiError && e.retryable then "Error: " ++ e.message ++ " (retryable)"
         else "Error: " ++ e.message)
  ∧ ((e.isAsanaApiError && e.retryable) = true ↔ e.isRateLimitError = true)
  ∧ (∀ (α : Type) (r : Except ThrownError α) (onOk : α → ToolResponse),
      r = .error e → toolHandle r onOk = formatError e)
  ∧ (∀ req body, transportFetch req = .jsonResponse 401 body →
      req.pathname = "/mcp" ∧ req.method = "POST"
        ∧ (parseTenantCredentials req).accessToken = "") := by
  refine ⟨rfl, rfl, ?_, ?_, ?_⟩
  · cases e <;>
      simp [ThrownError.isAsanaApiError, ThrownError.retryable, ThrownError.isRateLimitError]
  · intro α r onOk hr
    subst hr
    rfl
  · intro req body h
    by_cases h1 : req.pathname = "/health"
    · simp [transportFetch, h1, healthBody] at h
    · by_cases h2 : (req.pathname = "/mcp" && req.method = "POST") = true
      · have h2' : req.pathname = "/mcp" ∧ req.method = "POST" := by simpa using h2
        by_cases hv : (parseTenantCredentials req).accessToken = ""
        · exact ⟨h2'.1, h2'.2, hv⟩
        · simp [transportFetch, h1, h2, validateCredentials, hv] at h
      · have h2' : (req.pathname = "/mcp" && req.method = "POST") = false := by
          rw [Bool.eq_false_iff]; exact h2
        by_cases h3 : req.pathname = "/sse"
        · simp [transportFetch, h1, h2', h3] at h
        · simp [transportFetch, h1, h2', h3, capabilityDoc] at h

theorem error_envelope_witness :
    formatError (.rateLimitError "Rate limit exceeded" (some 30))
      = { content := [jsonStringify2 (Json.objOf
                        [("error", .str (formatErrorMessageLine
                            (.rateLimitError "Rate limit exceeded" (some 30)))),
                         ("details", (ThrownError.rateLimitError "Rate limit exceeded"
                            (some 30)).forLogging)])],
          isError := some true }
  ∧ formatErrorMessageLine (.rateLimitError "Rate limit exceeded" (some 30))
      = (if (ThrownError.rateLimitError "Rate limit exceeded" (some 30)).isAsanaApiError
            && (ThrownError.rateLimitError "Rate limit exceeded" (some 30)).retryable then
          "Error: " ++ (ThrownError.rateLimitError "Rate limit exceeded" (some 30)).message
            ++ " (retryable)"
         else "Error: " ++ (ThrownError.rateLimitError "Rate limit exceeded" (some 30)).message)
  ∧ (((ThrownError.rateLimitError "Rate limit exceeded" (some 30)).isAsanaApiError
        && (ThrownError.rateLimitError "Rate limit exceeded" (some 30)).retryable) = true
      ↔ (ThrownError.rateLimitError "Rate limit exceeded" (some 30)).isRateLimitError = true)
  ∧ (∀ (α : Type) (r : Except ThrownError α) (onOk : α → ToolResponse),
      r = .error (.rateLimitError "Rate limit exceeded" (some 30)) →
        toolHandle r onOk = formatError (.rateLimitError "Rate limit exceeded" (some 30)))
  ∧ (∀ req body, transportFetch req = .jsonResponse 401 body →
      req.pathname = "/mcp" ∧ req.method = "POST"
        ∧ (parseTenantCredentials req).accessToken = "") :=
  error_envelope (.rateLimitError "Rate limit exceeded" (some 30))

/-- C8: `asana_create_task({name:"Ship spec", workspace:"999"})` makes the
adapter issue `POST /tasks` whose serialized body is exactly
`{"data":{"name":"Ship spec","workspace":"999"}}` (all `undefined` fields
dropped, no other keys), and a 201 response `{data: task}` makes the tool
return the serialized `{success: true, message: "Task created", task}`. -/
theorem create_task_end_to_end (c : TenantCredentials) (task : Json) (rest : JsonObject)
    (htok : c.accessToken ≠ "") :
    createTaskRequest shipSpecInput
      = { endpoint := "/tasks", method := "POST",
          body := some "\x7b\"data\":\x7b\"name\":\"Ship spec\",\"workspace\":\"999\"\x7d\x7d" }
  ∧ createTaskToolResponse c shipSpecInput
        { status := 201, body := some (.obj (.cons "data" task rest)) }
      = { content := [jsonStringify2 (Json.objOf
            [("success", .bool true), ("message", .str "Task created"), ("task", task)])],
          isError := none } := by
  constructor
  · rfl
  · simp [createTaskToolResponse, createTaskResult, createTaskRequest, requestResult,
      getAuthHeaders, htok, HttpResponse.ok, toolHandle, Json.get, JsonObject.lookup,
      optField, Json.objOf, JsonObject.ofList]

theorem create_task_end_to_end_witness :
    createTaskRequest shipSpecInput
      = { endpoint := "/tasks", method := "POST",
          body := some "\x7b\"data\":\x7b\"name\":\"Ship spec\",\"workspace\":\"999\"\x7d\x7d" }
  ∧ createTaskToolResponse ⟨"tok"⟩ shipSpecInput
        { status := 201,
          body := some (.obj (.cons "data"
            (Json.objOf [("gid", .str "1"), ("name", .str "Ship spec")]) .nil)) }
      = { content := [jsonStringify2 (Json.objOf
            [("success", .bool true), ("message", .str "Task created"),
             ("task", Json.objOf [("gid", .str "1"), ("name", .str "Ship spec")])])],
          isError := none } :=
  create_task_end_to_end ⟨"tok"⟩
    (Json.objOf [("gid", .str "1"), ("name", .str "Ship spec")]) .nil (by decide)
